import Mathlib

/-!
Verification of the timeline-rendering tools (tools/mermaid_timeline.py and
tools/plot_timeline.py) against their natural-language specification.

The Python code computes downsampling bucket boundaries with IEEE-754
binary64 floating-point arithmetic (`step = len(values) / max_points`,
`int(i * step)`), so the embedding models binary64 rounding exactly:
every float produced by those expressions is an exact rational number, and
each CPython operation (int/int true division, int-to-float conversion,
float multiplication) returns the nearest representable value with ties to
even.  Rationals are represented as unreduced numerator/denominator pairs
(`Frac`, denominator kept positive by construction) so that every operation
is elementary integer arithmetic and evaluates inside the kernel.  Overflow
and subnormal behaviour of binary64 never arises for the magnitudes these
expressions produce and is not modelled.

Python `int` is ℤ, `//` on ints is `Int.fdiv` (floor division), `int(x)`
on a float is truncation toward zero, and list slicing `values[a:b]` is
`pySlice` with Python's clamping rules.  Exceptions are modelled with
`Except PyExc`.
-/

/-- Exact rational number as an unreduced fraction.  Every constructor used
below keeps `den` strictly positive, so comparisons can cross-multiply. -/
structure Frac where
  num : ℤ
  den : ℤ
deriving DecidableEq

/-- Embed an integer. -/
def qOfInt (t : ℤ) : Frac := ⟨t, 1⟩

/-- Exact quotient `a / b` of two integers (`b ≠ 0`), sign-normalised so the
denominator is positive. -/
def qDiv (a b : ℤ) : Frac := if b < 0 then ⟨-a, -b⟩ else ⟨a, b⟩

/-- Exact product. -/
def qMul (a b : Frac) : Frac := ⟨a.num * b.num, a.den * b.den⟩

/-- Exact negation. -/
def qNeg (a : Frac) : Frac := ⟨-a.num, a.den⟩

/-- Exact difference. -/
def qSub (a b : Frac) : Frac := ⟨a.num * b.den - b.num * a.den, a.den * b.den⟩

/-- Order on fractions with positive denominators. -/
def qLe (a b : Frac) : Prop := a.num * b.den ≤ b.num * a.den

/-- Strict order on fractions with positive denominators. -/
def qLt (a b : Frac) : Prop := a.num * b.den < b.num * a.den

instance (a b : Frac) : Decidable (qLe a b) := by unfold qLe; infer_instance

instance (a b : Frac) : Decidable (qLt a b) := by unfold qLt; infer_instance

/-- Floor of a fraction with positive denominator. -/
def qFloor (a : Frac) : ℤ := a.num.fdiv a.den

/-- Truncation toward zero, Python's `int(x)` on a float. -/
def qTrunc (a : Frac) : ℤ := a.num.tdiv a.den

/-- One half. -/
def qHalf : Frac := ⟨1, 2⟩

/-- Reciprocal, sign-normalised. -/
def qInv (a : Frac) : Frac := if a.num < 0 then ⟨-a.den, -a.num⟩ else ⟨a.den, a.num⟩

/-- Fuel-driven floor of the base-2 logarithm of a natural number, written
structurally so the kernel can evaluate it on large literals. -/
def natLog2Fuel : ℕ → ℕ → ℕ
  | 0, _ => 0
  | fuel + 1, n => if n ≤ 1 then 0 else natLog2Fuel fuel (n / 2) + 1

/-- Floor of the base-2 logarithm (`natLog2 n = k` iff `2^k ≤ n < 2^(k+1)`
for `n ≥ 1`). -/
def natLog2 (n : ℕ) : ℕ := natLog2Fuel n n

/-- The fraction `2 ^ e` for a possibly negative exponent. -/
def qPow2 (e : ℤ) : Frac :=
  if 0 ≤ e then ⟨2 ^ e.toNat, 1⟩ else ⟨1, 2 ^ (-e).toNat⟩

/-- Floor of the base-2 logarithm of a positive fraction. -/
def qLog2 (q : Frac) : ℤ :=
  if qLe (qOfInt 1) q then (natLog2 (qFloor q).toNat : ℤ)
  else
    let j : ℤ := (natLog2 (qFloor (qInv q)).toNat : ℤ)
    if qLe (qPow2 (-j)) q then -j else -j - 1

/-- Round a fraction to the nearest integer, ties to even. -/
def roundNE (s : Frac) : ℤ :=
  let f := qFloor s
  let r := qSub s (qOfInt f)
  if qLt r qHalf then f
  else if qLt qHalf r then f + 1
  else if f % 2 = 0 then f else f + 1

/-- Round a positive fraction to the nearest binary64 value (53 significant
bits, round to nearest, ties to even; normal range). -/
def fl64Pos (q : Frac) : Frac :=
  let e := qLog2 q - 52
  qMul (qOfInt (roundNE (qMul q (qPow2 (-e))))) (qPow2 e)

/-- Round any fraction to the nearest binary64 value (normal range; the
magnitudes produced by the embedded code never overflow or go subnormal). -/
def fl64 (q : Frac) : Frac :=
  if q.num = 0 then qOfInt 0
  else if q.num < 0 then qNeg (fl64Pos (qNeg q)) else fl64Pos q

/-- Python exceptions the embedded code can raise, plus the error classes
the specification names.  The code itself defines no error classes and only
ever raises the built-ins in the first group; the spec-named classes are
included so that claims mentioning them can be stated and compared against
the behaviour of the code. -/
inductive PyExc where
  | indexError
  | keyError
  | valueError
  | zeroDivisionError
  | emptyInputError
  | malformedInputError
  | unknownMetricError
  | invalidConfigurationError
  | internalInvariantError
deriving DecidableEq

instance {ε α : Type} [DecidableEq ε] [DecidableEq α] : DecidableEq (Except ε α) := fun x y =>
  match x, y with
  | .ok a, .ok b => if h : a = b then .isTrue (by rw [h]) else .isFalse (by simp [h])
  | .error e, .error f => if h : e = f then .isTrue (by rw [h]) else .isFalse (by simp [h])
  | .ok _, .error _ => .isFalse (by simp)
  | .error _, .ok _ => .isFalse (by simp)

/-- ASCII whitespace for Python's `str.strip()`. -/
def pyWS (c : Char) : Bool :=
  c == ' ' || c == '\t' || c == '\n' || c == '\r' || c == '\x0b' || c == '\x0c'

/-- Python `key.strip()` (ASCII whitespace; the tool's metric keys are
ASCII). -/
def pyStrip (s : String) : String :=
  ⟨((s.data.dropWhile pyWS).reverse.dropWhile pyWS).reverse⟩

/-- Python list slice `l[a:b]` (step 1): negative indices count from the
end, both bounds clamp to `[0, len(l)]`. -/
def pySlice (l : List ℤ) (a b : ℤ) : List ℤ :=
  let n : ℤ := l.length
  let lo : ℤ := if a < 0 then max (n + a) 0 else min a n
  let hi : ℤ := if b < 0 then max (n + b) 0 else min b n
  (l.drop lo.toNat).take (hi - lo).toNat

/-- Left-to-right effectful map into `Except`, the shape of the source's
loops and comprehensions: the first raised exception aborts. -/
def exList {α β : Type} (l : List α) (f : α → Except PyExc β) : Except PyExc (List β) :=
  match l with
  | [] => .ok []
  | a :: as =>
    match f a with
    | .error e => .error e
    | .ok b =>
      match exList as f with
      | .error e => .error e
      | .ok bs => .ok (b :: bs)

/-- The float value of `len(values) / max_points` in `downsample`
(CPython's int/int true division is correctly rounded). -/
def stepOf (n cap : ℤ) : Frac := fl64 (qDiv n cap)

/-- The bucket boundary `int(t * step)` of `downsample`: the loop index `t`
is converted to a float (rounding if above 2^53), multiplied by the float
`step` with one more rounding, then truncated by `int()`. -/
def pyBound (step : Frac) (t : ℕ) : ℤ := qTrunc (fl64 (qMul (fl64 (qOfInt t)) step))

/-- One iteration of the loop in `downsample`:
`result.append(sum(values[start:end]) // (end - start))`, raising
`ZeroDivisionError` when the bucket is empty. -/
def pyBucket (values : List ℤ) (step : Frac) (i : ℕ) : Except PyExc ℤ :=
  let s := pyBound step i
  let e := pyBound step (i + 1)
  if e - s = 0 then .error .zeroDivisionError
  else .ok ((pySlice values s e).sum.fdiv (e - s))

/-- `downsample(values, max_points)` from tools/mermaid_timeline.py.  The
call sites all use the default `max_points = 30`.  `len(values) / 0` raises
`ZeroDivisionError`; for negative caps `range(max_points)` is empty. -/
def pyDownsample (values : List ℤ) (cap : ℤ) : Except PyExc (List ℤ) :=
  if (values.length : ℤ) ≤ cap then .ok values
  else if cap = 0 then .error .zeroDivisionError
  else exList (List.range cap.toNat) (pyBucket values (stepOf values.length cap))

/-- Modelled from the spec: the downsampler the specification describes,
with the real-valued step `len(values) / cap` and bucket `i` spanning
`[floor(i*step), floor((i+1)*step))` computed in exact arithmetic, each
output point the floor-division average of its bucket.  Used to compare the
spec's exact-arithmetic contract with the code's float arithmetic. -/
def specDownsample (values : List ℤ) (cap : ℕ) : List ℤ :=
  if values.length ≤ cap then values
  else
    (List.range cap).map (fun i =>
      let n := values.length
      let s := i * n / cap
      let e := (i + 1) * n / cap
      (((values.drop s).take (e - s)).sum).fdiv ((e : ℤ) - (s : ℤ)))

/-- The integer list `[0, 1, ..., n-1]`, used as concrete test data. -/
def intRange (n : ℕ) : List ℤ := (List.range n).map (fun k => (k : ℤ))

/-- One CSV record as `csv.DictReader` yields it: field name to cell, where
a cell is the integer `int(...)` would return, or `none` when the text does
not parse as an integer (so `int(r[key])` raises `ValueError`). -/
def Row : Type := List (String × Option ℤ)

/-- `load_csv` from tools/mermaid_timeline.py (tools/plot_timeline.py has an
identical copy), applied to the parsed record list: `rows[0]` raises
`IndexError` on an empty record set, then each column is materialised by
`[int(r[key]) for r in rows]` in the field order of row 0. -/
def loadCSV (rows : List Row) : Except PyExc (List (String × List ℤ)) :=
  match rows with
  | [] => .error .indexError
  | r0 :: _ =>
    exList (r0.map Prod.fst) (fun k =>
      (exList rows (fun r =>
        match r.lookup k with
        | none => .error .keyError
        | some none => .error .valueError
        | some (some z) => .ok z)).map (fun vs => (k, vs)))

/-- METRIC_GROUPS from tools/mermaid_timeline.py: metric key to
(display title, column name, y-axis label), in declaration order. -/
def METRIC_GROUPS : List (String × String × String × String) :=
  [("alive", "Population", "alive", "count"),
   ("trades", "Cumulative Trades", "trades", "count"),
   ("teaches", "Cumulative Teaches", "teaches", "count"),
   ("gold", "Total Gold", "gold", "gold"),
   ("avg_stress", "Average Stress", "avg_stress", "stress (0-100)"),
   ("food", "Food on Map", "food", "tiles"),
   ("items", "Items on Map", "items", "tiles"),
   ("avg_fit", "Average Fitness", "avg_fit", "fitness"),
   ("best_fit", "Best Fitness", "best_fit", "fitness"),
   ("holders", "Item Holders", "holders", "count"),
   ("crafted", "Crafted Items (shield+compass)", "crafted", "count"),
   ("crystal_npcs", "Crystal NPCs", "crystal_npcs", "count")]

/-- COMPOSITES from tools/mermaid_timeline.py: composite key to
(panel title, ordered (series label, metric key) pairs). -/
def COMPOSITES : List (String × String × List (String × String)) :=
  [("population", "Population & Stress", [("alive", "alive"), ("avg_stress", "avg_stress")]),
   ("economy", "Economy", [("trades", "trades"), ("teaches", "teaches")]),
   ("fitness", "Fitness", [("best_fit", "best_fit"), ("avg_fit", "avg_fit")]),
   ("resources", "Resources", [("food", "food"), ("items", "items")])]

/-- The `line [...]` directive one series contributes to a chart block. -/
def lineDirective (ys : List ℤ) : String :=
  "    line [" ++ String.intercalate ", " (ys.map toString) ++ "]"

/-- The `x-axis` line of a chart block. -/
def xAxisLine (xLabel : String) (xs : List ℤ) : String :=
  "    x-axis \"" ++ xLabel ++ "\" [" ++ String.intercalate ", " (xs.map toString) ++ "]"

/-- The `title` line of a chart block. -/
def titleLine (t : String) : String := "    title \"" ++ t ++ "\""

/-- `xychart` from tools/mermaid_timeline.py: a block is its list of lines
(the source joins them with newlines).  The x axis and every series are
downsampled independently with the default cap of 30; the `y_label`
parameter exists in the source but never appears in the emitted lines. -/
def xychart (title : String) (xValues : List ℤ) (series : List (String × List ℤ))
    (xLabel yLabel : String) : Except PyExc (List String) :=
  match pyDownsample xValues 30 with
  | .error e => .error e
  | .ok xd =>
    match exList series (fun nv => (pyDownsample nv.2 30).map lineDirective) with
    | .error e => .error e
    | .ok slines =>
      .ok (["```mermaid", "xychart-beta", titleLine title, xAxisLine xLabel xd]
        ++ slines ++ ["```"])

/-- Resolution of one composite in `main`'s default branch:
`series = [(name, cols[col]) for name, col in series_defs]` followed by
`xychart(title, ticks, series)`; `cols[col]` raises `KeyError` when the
column is absent. -/
def renderComposite (cols : List (String × List ℤ)) (ticks : List ℤ) (key : String) :
    Except PyExc (List String) :=
  match COMPOSITES.lookup key with
  | none => .error .keyError
  | some (title, defs) =>
    match exList defs (fun nc =>
      match cols.lookup nc.2 with
      | none => Except.error PyExc.keyError
      | some vs => Except.ok (nc.1, vs)) with
    | .error e => .error e
    | .ok series => xychart title ticks series "tick" "value"

/-- The emission loop of `main`'s explicit `--metrics` branch: keys are
stripped, unknown keys are skipped silently, known keys print one block
each; a missing column or a failing chart aborts the loop, keeping the
blocks already printed. -/
def emitLoop (cols : List (String × List ℤ)) (ticks : List ℤ) :
    List String → List (List String) → List (List String) × Option PyExc
  | [], acc => (acc, none)
  | k :: ks, acc =>
    match METRIC_GROUPS.lookup (pyStrip k) with
    | none => emitLoop cols ticks ks acc
    | some (title, col, yLabel) =>
      match cols.lookup col with
      | none => (acc, some .keyError)
      | some vs =>
        match xychart title ticks [(col, vs)] "tick" yLabel with
        | .error e => (acc, some e)
        | .ok b => emitLoop cols ticks ks (acc ++ [b])

/-- `main` in the explicit `--metrics` mode: load the CSV, look up the
`tick` column, then emit one block per selected metric.  The result is the
list of blocks written to the output stream, paired with the exception that
terminated the run, if any. -/
def runMetricsMode (rows : List Row) (keys : List String) :
    List (List String) × Option PyExc :=
  match loadCSV rows with
  | .error e => ([], some e)
  | .ok cols =>
    match cols.lookup "tick" with
    | none => ([], some .keyError)
    | some ticks => emitLoop cols ticks keys []

/-- The first-difference series of the activity-rate panel in `plot` of
tools/plot_timeline.py: `[(c[i] - c[i-1]) for i in range(1, len(ticks))]`.
Under the loader's invariant all columns have the length of `ticks`, so
every index is in range. -/
def rateSeries (ticks c : List ℤ) : List ℤ :=
  (List.range' 1 (ticks.length - 1)).map (fun i => c.getD i 0 - c.getD (i - 1) 0)

/-- The activity-rate panel's plotted data: `ax.plot(ticks[1:], rate)`. -/
def ratePanel (ticks c : List ℤ) : List ℤ × List ℤ :=
  (ticks.drop 1, rateSeries ticks c)


/-- Auxiliary: a successful `exList` maps every output element back to some
input element on which `f` succeeded with it. -/
theorem exList_ok_mem {α β : Type} (l : List α) (f : α → Except PyExc β) (out : List β)
    (h : exList l f = .ok out) : ∀ x ∈ out, ∃ a ∈ l, f a = .ok x := by
  induction l generalizing out with
  | nil =>
    simp only [exList] at h
    injection h with h
    subst h
    intro x hx
    exact absurd hx (List.not_mem_nil x)
  | cons a as ih =>
    simp only [exList] at h
    cases hfa : f a with
    | error e => rw [hfa] at h; exact absurd h (by simp)
    | ok b =>
      rw [hfa] at h
      cases hrec : exList as f with
      | error e => rw [hrec] at h; exact absurd h (by simp)
      | ok bs =>
        rw [hrec] at h
        injection h with h
        subst h
        intro x hx
        rcases List.mem_cons.mp hx with hx | hx
        · exact ⟨a, List.mem_cons_self a as, hx ▸ hfa⟩
        · obtain ⟨c, hc, hcx⟩ := ih bs hrec x hx
          exact ⟨c, List.mem_cons_of_mem a hc, hcx⟩

/-- Auxiliary: post-composing the body of a successful `exList` with a pure
function maps the result. -/
theorem exList_map_ok {α β γ : Type} (l : List α) (f : α → Except PyExc β) (g : β → γ)
    (ys : List β) (h : exList l f = .ok ys) :
    exList l (fun x => (f x).map g) = .ok (ys.map g) := by
  induction l generalizing ys with
  | nil =>
    simp only [exList] at h ⊢
    injection h with h
    subst h
    rfl
  | cons a as ih =>
    simp only [exList] at h ⊢
    cases hfa : f a with
    | error e => rw [hfa] at h; exact absurd h (by simp)
    | ok b =>
      rw [hfa] at h
      cases hrec : exList as f with
      | error e => rw [hrec] at h; exact absurd h (by simp)
      | ok bs =>
        rw [hrec] at h
        injection h with h
        subst h
        rw [ih bs hrec]
        simp [Except.map]

/-- Auxiliary: the first bucket boundary of `downsample` is always 0. -/
theorem pyBound_zero (step : Frac) : pyBound step 0 = 0 := by
  simp [pyBound, fl64, qOfInt, qMul, qTrunc]

/-- Auxiliary: local monotonicity of the bucket boundaries up to `m` chains
to global monotonicity on `[0, m]`. -/
theorem pyBound_chain (step : Frac) (m : ℕ)
    (h : ∀ j : ℕ, j < m → pyBound step j ≤ pyBound step (j + 1)) :
    ∀ j k : ℕ, j ≤ k → k ≤ m → pyBound step j ≤ pyBound step k := by
  intro j k hjk
  induction hjk with
  | refl => intro _; exact le_refl _
  | step hjk ih =>
    intro hkm
    exact le_trans (ih (by omega)) (h _ (by omega))

/-- Auxiliary: a slice with both bounds inside `[0, len(l)]` is the
corresponding segment; its length is the bound difference and its members
are members of `l`. -/
theorem pySlice_inside (l : List ℤ) (a b : ℤ) (h0 : 0 ≤ a) (hab : a ≤ b)
    (hbn : b ≤ (l.length : ℤ)) :
    (pySlice l a b).length = (b - a).toNat ∧ ∀ x ∈ pySlice l a b, x ∈ l := by
  constructor
  · simp only [pySlice]
    rw [if_neg (by omega), if_neg (by omega)]
    rw [List.length_take, List.length_drop]
    omega
  · intro x hx
    simp only [pySlice] at hx
    exact List.mem_of_mem_drop (List.mem_of_mem_take hx)

/-- Auxiliary: the floor-division average of a list of `d` integers all in
`[lo, hi]` is itself in `[lo, hi]`. -/
theorem sum_fdiv_bounds (l : List ℤ) (d lo hi : ℤ) (hd : 0 < d)
    (hlen : (l.length : ℤ) = d)
    (hlo : ∀ x ∈ l, lo ≤ x) (hhi : ∀ x ∈ l, x ≤ hi) :
    lo ≤ l.sum.fdiv d ∧ l.sum.fdiv d ≤ hi := by
  have hlow : l.length • lo ≤ l.sum := List.card_nsmul_le_sum l lo hlo
  have hhigh : l.sum ≤ l.length • hi := List.sum_le_card_nsmul l hi hhi
  rw [nsmul_eq_mul, hlen] at hlow hhigh
  rw [Int.fdiv_eq_ediv _ hd.le]
  constructor
  · rw [Int.le_ediv_iff_mul_le hd]
    calc lo * d = d * lo := mul_comm lo d
    _ ≤ l.sum := hlow
  · calc l.sum / d ≤ hi * d / d := Int.ediv_le_ediv hd (by calc l.sum ≤ d * hi := hhigh
                                                          _ = hi * d := mul_comm d hi)
    _ = hi := Int.mul_ediv_cancel hi hd.ne.symm

/-- Auxiliary: one `downsample` bucket applied to a constant list, for
bounds that start inside the list (the upper bound may overshoot). -/
theorem pyBucket_replicate (n : ℕ) (x : ℤ) (step : Frac) (i : ℕ) (s e : ℤ)
    (hs : pyBound step i = s) (he : pyBound step (i + 1) = e)
    (h0 : 0 ≤ s) (hse : s < e) (hsn : s ≤ (n : ℤ)) :
    pyBucket (List.replicate n x) step i =
      .ok (((min e (n : ℤ) - s) * x).fdiv (e - s)) := by
  unfold pyBucket
  rw [hs, he, if_neg (by omega)]
  congr 1
  simp only [pySlice, List.length_replicate]
  rw [if_neg (by omega), if_neg (by omega)]
  rw [min_eq_left hsn]
  rw [List.drop_replicate, List.take_replicate]
  have hmin : min (min e (n : ℤ) - s).toNat (n - s.toNat) = (min e (n : ℤ) - s).toNat := by
    omega
  rw [hmin, List.sum_replicate, nsmul_eq_mul]
  have hcast : ((min e (n : ℤ) - s).toNat : ℤ) = min e (n : ℤ) - s := by omega
  rw [hcast]

set_option maxRecDepth 10000 in
/-- C1: the code's float bucket boundaries diverge from the spec's exact
real-arithmetic boundaries.  At 123 points and the default cap of 30,
Python computes `int(30 * (123 / 30)) == 122`, so the last bucket is
`[118, 122)` and index 122 is dropped: the final output point is 119, while
the spec's exact buckets end at 123 and give 120.  The code therefore does
not satisfy the claimed partition property (last bucket upper bound equal
to `len(values)`, gap-free coverage, exact-step averages). -/
theorem downsample_tail_bucket_C1 :
    pyDownsample (intRange 123) 30 =
      .ok [1, 5, 9, 13, 17, 21, 25, 29, 33, 38, 42, 46, 50, 54, 58, 62, 66, 70, 74, 79,
           83, 87, 91, 95, 99, 103, 107, 111, 115, 119]
    ∧ specDownsample (intRange 123) 30 =
      [1, 5, 9, 13, 17, 21, 25, 29, 33, 38, 42, 46, 50, 54, 58, 62, 66, 70, 74, 79,
       83, 87, 91, 95, 99, 103, 107, 111, 115, 120] := by
  constructor
  · decide
  · decide

/-- C2: when `len(values) <= cap` the downsampler is the identity: it
returns the input list unchanged and performs no aggregation. -/
theorem downsample_identity_C2 (values : List ℤ) (cap : ℤ)
    (h : (values.length : ℤ) ≤ cap) : pyDownsample values cap = .ok values := by
  unfold pyDownsample
  rw [if_pos h]

/-- Witness for C2 at `values = [1, 2, 3]`, `cap = 5`. -/
theorem downsample_identity_C2_wit :
    ((([1, 2, 3] : List ℤ).length : ℤ) ≤ 5)
    ∧ pyDownsample [1, 2, 3] 5 = .ok [1, 2, 3] :=
  ⟨by decide, downsample_identity_C2 [1, 2, 3] 5 (by decide)⟩

/-- C3: with `cap = 2^53 + 1` and `len(values) = 2^53 + 2` (so
`1 ≤ cap < len(values)`), float rounding collapses the bucket at index
`i = 2^53`: `int(i * step) == int((i+1) * step) == 2^53`, the divisor
`end - start` is 0, and the loop body raises `ZeroDivisionError`.  The
bucket expression does not read the list, so the collapse is independent of
the list contents; the claim that every bucket is non-empty (and the
division-by-zero branch unreachable) under this precondition is false of
the code. -/
theorem bucket_collapse_C3 :
    ((1 : ℤ) ≤ 2 ^ 53 + 1 ∧ (2 ^ 53 + 1 : ℤ) < 2 ^ 53 + 2)
    ∧ pyBound (stepOf (2 ^ 53 + 2) (2 ^ 53 + 1)) (2 ^ 53 + 1)
        = pyBound (stepOf (2 ^ 53 + 2) (2 ^ 53 + 1)) (2 ^ 53)
    ∧ ∀ values : List ℤ,
        pyBucket values (stepOf (2 ^ 53 + 2) (2 ^ 53 + 1)) (2 ^ 53)
          = .error PyExc.zeroDivisionError := by
  have h1 : pyBound (stepOf (2 ^ 53 + 2) (2 ^ 53 + 1)) (2 ^ 53) = 2 ^ 53 := by decide
  have h2 : pyBound (stepOf (2 ^ 53 + 2) (2 ^ 53 + 1)) (2 ^ 53 + 1) = 2 ^ 53 := by decide
  refine ⟨⟨by norm_num, by norm_num⟩, by rw [h1, h2], ?_⟩
  intro values
  unfold pyBucket
  rw [h1, h2]
  norm_num

/-- C4 counterexample: `downsample([1], -1)` does not fail at all — it
silently returns the empty list, so no `InvalidConfigurationError` (nor any
other error) is raised for this non-positive cap. -/
theorem downsample_negative_cap_C4_cex : pyDownsample [(1 : ℤ)] (-1) = .ok [] := by
  decide

/-- C4 amended: the code never raises a dedicated configuration error.  For
`cap < 0` the identity test fails, `range(cap)` is empty and the result is
the silently-wrong empty list; for `cap = 0` and a non-empty input the
expression `len(values) / 0` raises `ZeroDivisionError` (an empty input
returns unchanged via the identity branch). -/
theorem downsample_nonpositive_cap_C4 (values : List ℤ) (cap : ℤ) :
    (cap < 0 → pyDownsample values cap = .ok [])
    ∧ (cap = 0 → values ≠ [] → pyDownsample values cap = .error PyExc.zeroDivisionError) := by
  constructor
  · intro hneg
    unfold pyDownsample
    rw [if_neg (by omega), if_neg (by omega)]
    rw [show cap.toNat = 0 by omega]
    rfl
  · intro hzero hne
    subst hzero
    unfold pyDownsample
    have hlen : values.length ≠ 0 := fun h => hne (List.length_eq_zero.mp h)
    rw [if_neg (by omega), if_pos rfl]

/-- Witness for C4 at `values = [1, 2]` with `cap = -2` and `cap = 0`. -/
theorem downsample_nonpositive_cap_C4_wit :
    pyDownsample [(1 : ℤ), 2] (-2) = .ok []
    ∧ pyDownsample [(1 : ℤ), 2] 0 = .error PyExc.zeroDivisionError :=
  ⟨(downsample_nonpositive_cap_C4 [1, 2] (-2)).1 (by decide),
   (downsample_nonpositive_cap_C4 [1, 2] 0).2 rfl (by decide)⟩

/-- C9 counterexample: on an empty record set `load_csv` fails with the
`IndexError` raised by the `rows[0]` field probe, which is not the
dedicated `EmptyInputError` the claim names (the code defines no such
class). -/
theorem empty_input_error_class_C9_cex :
    loadCSV [] = .error PyExc.indexError
    ∧ PyExc.indexError ≠ PyExc.emptyInputError :=
  ⟨rfl, by decide⟩

/-- C9 amended: loading an empty record set fails fast — with the built-in
`IndexError` from probing row 0 for the field names. -/
theorem empty_input_fails_C9 : loadCSV ([] : List Row) = .error PyExc.indexError := rfl

/-- Auxiliary: the emission loop leaves the accumulator untouched and
reports success when every key fails the catalog membership test. -/
theorem emitLoop_all_unknown (cols : List (String × List ℤ)) (ticks : List ℤ)
    (keys : List String) (acc : List (List String))
    (h : ∀ k ∈ keys, METRIC_GROUPS.lookup (pyStrip k) = none) :
    emitLoop cols ticks keys acc = (acc, none) := by
  induction keys generalizing acc with
  | nil => rfl
  | cons k ks ih =>
    unfold emitLoop
    rw [h k (List.mem_cons_self k ks)]
    exact ih acc (fun x hx => h x (List.mem_cons_of_mem k hx))

/-- C5 counterexample: with a valid one-row CSV and the explicit selection
list `["foo"]`, the run neither fails nor emits anything: the unknown key
is silently skipped and the run succeeds with zero blocks, instead of
failing with `UnknownMetricError`. -/
theorem unknown_metric_silent_C5_cex :
    runMetricsMode [[("tick", some 0), ("alive", some 5)]] ["foo"] = ([], none) := by
  decide

/-- C5 amended: in the explicit `--metrics` mode, a key that is not in the
metric catalog is silently skipped — no block is emitted for it and no
error is raised; a selection of only unknown keys yields a successful run
with no output at all. -/
theorem unknown_metric_skipped_C5 (rows : List Row) (keys : List String)
    (cols : List (String × List ℤ)) (ticks : List ℤ)
    (hload : loadCSV rows = .ok cols)
    (htick : cols.lookup "tick" = some ticks)
    (hunknown : ∀ k ∈ keys, METRIC_GROUPS.lookup (pyStrip k) = none) :
    runMetricsMode rows keys = ([], none) := by
  unfold runMetricsMode
  simp only [hload, htick]
  exact emitLoop_all_unknown cols ticks keys [] hunknown

/-- Witness for C5 at a one-row CSV and the unknown key `"bar"`. -/
theorem unknown_metric_skipped_C5_wit :
    runMetricsMode [[("tick", some 0), ("alive", some 5)]] ["bar"] = ([], none) :=
  unknown_metric_skipped_C5 [[("tick", some 0), ("alive", some 5)]] ["bar"]
    [("tick", [0]), ("alive", [5])] [0] (by decide) (by decide) (by decide)

/-- C6 counterexample: with a CSV holding only `tick` and `alive` columns
and the selection `["alive", "gold"]`, the run emits the `alive` block and
then fails on `cols["gold"]` (`KeyError`): output is partial, contradicting
the all-or-nothing claim. -/
theorem partial_output_C6_cex :
    (runMetricsMode [[("tick", some 0), ("alive", some 1)]] ["alive", "gold"]).1 ≠ []
    ∧ (runMetricsMode [[("tick", some 0), ("alive", some 1)]] ["alive", "gold"]).2
        = some PyExc.keyError := by
  constructor
  · decide
  · decide

/-- C6 amended: the all-or-nothing guarantee holds for the load phase —
any `load_csv` failure terminates the run before any block is written — but
not for the emission loop, where a selected metric whose column is missing
from the CSV aborts the run after earlier blocks were already emitted. -/
theorem load_failure_no_output_C6 (rows : List Row) (keys : List String) (e : PyExc)
    (h : loadCSV rows = .error e) : runMetricsMode rows keys = ([], some e) := by
  unfold runMetricsMode
  rw [h]

/-- Witness for C6: the empty record set fails to load and the run emits
nothing. -/
theorem load_failure_no_output_C6_wit :
    runMetricsMode [] ["alive"] = ([], some PyExc.indexError) :=
  load_failure_no_output_C6 [] ["alive"] PyExc.indexError rfl

/-- C7: the activity-rate transform is the first difference of the
cumulative series, of length `n - 1`, entry `i` (for `1 ≤ i < n`) being
`c[i] - c[i-1]`, plotted against `ticks[1:]`; in particular the cumulative
series `[0, 3, 3, 7]` over ticks `[0, 1, 2, 3]` yields `[3, 0, 4]`. -/
theorem rate_transform_C7 (ticks c : List ℤ) (hlen : ticks.length = c.length)
    (h2 : 2 ≤ c.length) :
    (rateSeries ticks c).length = c.length - 1
    ∧ (∀ i : ℕ, 1 ≤ i → i < c.length →
        (rateSeries ticks c).getD (i - 1) 0 = c.getD i 0 - c.getD (i - 1) 0)
    ∧ (ratePanel ticks c).1 = ticks.drop 1
    ∧ rateSeries [0, 1, 2, 3] [0, 3, 3, 7] = [3, 0, 4] := by
  refine ⟨?_, ?_, rfl, by decide⟩
  · simp [rateSeries, hlen]
  · intro i h1 hi
    have hidx : i - 1 < ticks.length - 1 := by omega
    simp only [rateSeries, List.getD_eq_getElem?_getD, List.getElem?_map,
      List.getElem?_range', hidx, if_pos]
    rw [show 1 + 1 * (i - 1) = i from by omega]
    simp [List.getD_eq_getElem?_getD]

/-- Witness for C7 at ticks `[0, 1, 2, 3]` and cumulative `[0, 3, 3, 7]`. -/
theorem rate_transform_C7_wit :
    (([0, 1, 2, 3] : List ℤ).length = ([0, 3, 3, 7] : List ℤ).length)
    ∧ rateSeries [0, 1, 2, 3] [0, 3, 3, 7] = [3, 0, 4] :=
  ⟨rfl, (rate_transform_C7 [0, 1, 2, 3] [0, 3, 3, 7] rfl (by decide)).2.2.2⟩

/-- C8: a composite's constituent series are rendered in exactly the
declared order.  In general, a successful composite rendering emits one
`line` directive per resolved series in the order of the composite's
(series label, metric key) list; in particular, composite `economy` emits
the `trades` line before the `teaches` line. -/
theorem composite_order_C8 :
    (∀ (cols : List (String × List ℤ)) (ticks : List ℤ) (key title : String)
       (defs : List (String × String)) (series : List (String × List ℤ))
       (xd : List ℤ) (yds : List (List ℤ)),
       COMPOSITES.lookup key = some (title, defs) →
       exList defs (fun nc =>
         match cols.lookup nc.2 with
         | none => Except.error PyExc.keyError
         | some vs => Except.ok (nc.1, vs)) = .ok series →
       pyDownsample ticks 30 = .ok xd →
       exList series (fun nv => pyDownsample nv.2 30) = .ok yds →
       renderComposite cols ticks key =
         .ok (["```mermaid", "xychart-beta", titleLine title, xAxisLine "tick" xd]
           ++ yds.map lineDirective ++ ["```"]))
    ∧ (∀ (cols : List (String × List ℤ)) (ticks ts hs xd td hd : List ℤ),
       cols.lookup "trades" = some ts →
       cols.lookup "teaches" = some hs →
       pyDownsample ticks 30 = .ok xd →
       pyDownsample ts 30 = .ok td →
       pyDownsample hs 30 = .ok hd →
       renderComposite cols ticks "economy" =
         .ok ["```mermaid", "xychart-beta", titleLine "Economy", xAxisLine "tick" xd,
              lineDirective td, lineDirective hd, "```"]) := by
  have hgen : ∀ (cols : List (String × List ℤ)) (ticks : List ℤ) (key title : String)
      (defs : List (String × String)) (series : List (String × List ℤ))
      (xd : List ℤ) (yds : List (List ℤ)),
      COMPOSITES.lookup key = some (title, defs) →
      exList defs (fun nc =>
        match cols.lookup nc.2 with
        | none => Except.error PyExc.keyError
        | some vs => Except.ok (nc.1, vs)) = .ok series →
      pyDownsample ticks 30 = .ok xd →
      exList series (fun nv => pyDownsample nv.2 30) = .ok yds →
      renderComposite cols ticks key =
        .ok (["```mermaid", "xychart-beta", titleLine title, xAxisLine "tick" xd]
          ++ yds.map lineDirective ++ ["```"]) := by
    intro cols ticks key title defs series xd yds hlook hres hxd hyds
    have hmapped := exList_map_ok series (fun nv => pyDownsample nv.2 30) lineDirective yds hyds
    unfold renderComposite
    simp only [hlook, hres]
    unfold xychart
    simp only [hxd, hmapped]
  refine ⟨hgen, ?_⟩
  intro cols ticks ts hs xd td hd h1 h2 hxd htd hhd
  have hl : COMPOSITES.lookup "economy"
      = some ("Economy", [("trades", "trades"), ("teaches", "teaches")]) := by decide
  have hres : exList [("trades", "trades"), ("teaches", "teaches")] (fun nc =>
      match cols.lookup nc.2 with
      | none => Except.error PyExc.keyError
      | some vs => Except.ok (nc.1, vs)) = .ok [("trades", ts), ("teaches", hs)] := by
    simp [exList, h1, h2]
  have hyds : exList [("trades", ts), ("teaches", hs)] (fun nv => pyDownsample nv.2 30)
      = .ok [td, hd] := by
    simp [exList, htd, hhd]
  have := hgen cols ticks "economy" "Economy" [("trades", "trades"), ("teaches", "teaches")]
    [("trades", ts), ("teaches", hs)] xd [td, hd] hl hres hxd hyds
  simpa using this

/-- Witness for C8: a three-column CSV renders composite `economy` with the
trades line first. -/
theorem composite_order_C8_wit :
    renderComposite [("tick", [0, 1]), ("trades", [1, 2]), ("teaches", [3, 4])] [0, 1] "economy"
      = .ok ["```mermaid", "xychart-beta", titleLine "Economy", xAxisLine "tick" [0, 1],
             lineDirective [1, 2], lineDirective [3, 4], "```"] :=
  composite_order_C8.2 [("tick", [0, 1]), ("trades", [1, 2]), ("teaches", [3, 4])]
    [0, 1] [1, 2] [3, 4] [0, 1] [1, 2] [3, 4]
    (by decide) (by decide) (by decide) (by decide) (by decide)

/-- C10 counterexample: float rounding can push the final bucket boundary
past the end of the list.  For `len(values) = 2^53 + 5` and `cap = 3`
Python computes the boundary `int(3 * step) = 2^53 + 6 = len + 1`, so the
last bucket's divisor exceeds its (clamped) slice length: on the constant
list of 5s the result is `[5, 5, 4]`, and 4 is below the minimum of the
input.  The claimed range invariant fails. -/
theorem downsample_range_violation_C10_cex :
    pyDownsample (List.replicate 9007199254740997 (5 : ℤ)) 3 = .ok [5, 5, 4]
    ∧ ((4 : ℤ) < 5) := by
  refine ⟨?_, by norm_num⟩
  have hb0 : pyBound (stepOf 9007199254740997 3) 0 = 0 := by decide
  have hb1 : pyBound (stepOf 9007199254740997 3) 1 = 3002399751580332 := by decide
  have hb2 : pyBound (stepOf 9007199254740997 3) 2 = 6004799503160665 := by decide
  have hb3 : pyBound (stepOf 9007199254740997 3) 3 = 9007199254740998 := by decide
  have e0 : pyBucket (List.replicate 9007199254740997 (5 : ℤ)) (stepOf 9007199254740997 3) 0
      = .ok 5 := by
    rw [pyBucket_replicate 9007199254740997 5 (stepOf 9007199254740997 3) 0
      0 3002399751580332 hb0 hb1 (by decide) (by decide) (by decide)]
    decide
  have e1 : pyBucket (List.replicate 9007199254740997 (5 : ℤ)) (stepOf 9007199254740997 3) 1
      = .ok 5 := by
    rw [pyBucket_replicate 9007199254740997 5 (stepOf 9007199254740997 3) 1
      3002399751580332 6004799503160665 hb1 hb2 (by decide) (by decide) (by decide)]
    decide
  have e2 : pyBucket (List.replicate 9007199254740997 (5 : ℤ)) (stepOf 9007199254740997 3) 2
      = .ok 4 := by
    rw [pyBucket_replicate 9007199254740997 5 (stepOf 9007199254740997 3) 2
      6004799503160665 9007199254740998 hb2 hb3 (by decide) (by decide) (by decide)]
    decide
  unfold pyDownsample
  rw [List.length_replicate]
  simp only [Nat.cast_ofNat]
  rw [if_neg (by decide), if_neg (by decide)]
  rw [show (3 : ℤ).toNat = 3 from rfl, show List.range 3 = [0, 1, 2] from by decide]
  simp only [exList, e0, e1, e2]

/-- C10 amended: every element of a successful `downsample(values, cap)`
(`cap ≥ 1`) lies between any lower and upper bound of `values`, provided
the float-computed bucket boundaries are non-decreasing up to `cap` and the
final boundary does not exceed `len(values)` — the condition the
counterexample shows float rounding can violate once `len(values)` is
around 2^53. -/
theorem downsample_range_C10 (values : List ℤ) (cap : ℤ) (out : List ℤ) (lo hi : ℤ)
    (hcap : 1 ≤ cap)
    (hok : pyDownsample values cap = .ok out)
    (hmon : ∀ i : ℕ, (i : ℤ) < cap →
      pyBound (stepOf values.length cap) i ≤ pyBound (stepOf values.length cap) (i + 1))
    (hend : pyBound (stepOf values.length cap) cap.toNat ≤ (values.length : ℤ))
    (hlo : ∀ v ∈ values, lo ≤ v) (hhi : ∀ v ∈ values, v ≤ hi) :
    ∀ x ∈ out, lo ≤ x ∧ x ≤ hi := by
  unfold pyDownsample at hok
  by_cases hid : (values.length : ℤ) ≤ cap
  · rw [if_pos hid] at hok
    injection hok with hok
    subst hok
    intro x hx
    exact ⟨hlo x hx, hhi x hx⟩
  · rw [if_neg hid, if_neg (by omega)] at hok
    intro x hx
    obtain ⟨i, hiMem, hBi⟩ := exList_ok_mem _ _ _ hok x hx
    have hiR : i < cap.toNat := List.mem_range.mp hiMem
    have hmono2 : ∀ j k : ℕ, j ≤ k → k ≤ cap.toNat →
        pyBound (stepOf values.length cap) j ≤ pyBound (stepOf values.length cap) k :=
      pyBound_chain _ cap.toNat (fun j hj => hmon j (by omega))
    unfold pyBucket at hBi
    by_cases hz : pyBound (stepOf values.length cap) (i + 1)
        - pyBound (stepOf values.length cap) i = 0
    · rw [if_pos hz] at hBi
      exact absurd hBi (by simp)
    · rw [if_neg hz] at hBi
      injection hBi with hBi
      have hs0 : 0 ≤ pyBound (stepOf values.length cap) i := by
        have := hmono2 0 i (Nat.zero_le i) (by omega)
        rwa [pyBound_zero] at this
      have hse : pyBound (stepOf values.length cap) i
          ≤ pyBound (stepOf values.length cap) (i + 1) := hmon i (by omega)
      have heN : pyBound (stepOf values.length cap) (i + 1) ≤ (values.length : ℤ) :=
        le_trans (hmono2 (i + 1) cap.toNat (by omega) (le_refl _)) hend
      obtain ⟨hlenSlice, hmem⟩ := pySlice_inside values
        (pyBound (stepOf values.length cap) i)
        (pyBound (stepOf values.length cap) (i + 1)) hs0 hse heN
      subst hBi
      exact sum_fdiv_bounds _ _ lo hi (by omega) (by rw [hlenSlice]; omega)
        (fun y hy => hlo y (hmem y hy)) (fun y hy => hhi y (hmem y hy))

/-- Witness for C10 at `values = [0, 10]`, `cap = 1`: the single output
point 5 lies between the bounds 0 and 10. -/
theorem downsample_range_C10_wit :
    pyDownsample [(0 : ℤ), 10] 1 = .ok [5] ∧ ((0 : ℤ) ≤ 5 ∧ (5 : ℤ) ≤ 10) :=
  ⟨by decide,
   downsample_range_C10 [0, 10] 1 [5] 0 10 (by decide) (by decide)
     (by intro i hi; rw [show i = 0 from by omega]; decide)
     (by decide) (by decide) (by decide) 5 (by decide)⟩
